import Mathlib

/-!
Shallow embedding of the process supervisor in `src/main.py` and of the
LLM-configuration route handlers in `src/app/routes/llm_config_routes.py`
of the son261103/note_book_lm_by_seokk_api backend, together with proofs of
lifecycle and error-handling properties of that code.
-/

namespace Supervisor

/-- Command-line flags parsed by the argparse block of `main.py`
(lines 92-96). -/
structure Args where
  reload : Bool
  no_celery : Bool
  no_beat : Bool
deriving DecidableEq, Repr

/-- Role tag of a child process: the Celery worker (process name
`CeleryWorker`) or the Celery Beat scheduler (`CeleryBeat`). -/
inductive Role
  | worker
  | scheduler
deriving DecidableEq, Repr

/-- Observable behaviour of a spawned child process as seen by the parent
during the cleanup loop: `alive` is what `is_alive()` reports when the
cleanup loop reaches the child, and `termResponse` is the number of seconds
the child takes to exit after `terminate()` is requested (`none` means it
never exits voluntarily). -/
structure ChildBehavior where
  alive : Bool
  termResponse : Option Nat
deriving DecidableEq, Repr

/-- A recorded child handle, an entry of the `processes` list. -/
structure Child where
  name : Role
  behavior : ChildBehavior
deriving DecidableEq, Repr

/-- The POSIX signals for which `main.py` installs handlers. -/
inductive Sig
  | sigint
  | sigterm
deriving DecidableEq, Repr

/-- What a signal handler does when its signal is delivered: the OS default
disposition (abrupt termination of the process, no cleanup), or a Python
handler that calls `sys.exit(code)`, raising SystemExit(code) in the main
thread. -/
inductive HandlerAction
  | defaultKill
  | pySysExit (code : Nat)
deriving DecidableEq, Repr

/-- `signal_handler` (main.py lines 77-80) logs a message and calls
`sys.exit(0)`; lines 89-90 register it for both SIGINT and SIGTERM. -/
def installedHandler : Sig → HandlerAction
  | _ => .pySysExit 0

/-- Log/lifecycle events emitted by the supervisor, listed in the order the
corresponding log lines appear in `main.py`. -/
inductive Event
  | workerProcessStarted
  | beatProcessStarted
  | serverStarting
  | shutdownSignalCaught
  | mainError
  | cleaningUp
  | terminating (r : Role)
  | forceKilling (r : Role)
  | shutdownComplete
deriving DecidableEq, Repr

/-- What happens while `start_fastapi_server` runs `server.run()` in the
parent process: the run returns, an ordinary Exception escapes it, a
KeyboardInterrupt escapes it, or a registered signal is delivered to the
parent while it blocks. -/
inductive ServerEvent
  | runReturns
  | runRaisesException
  | runRaisesKeyboardInterrupt
  | signalDelivered (s : Sig)
deriving DecidableEq, Repr

/-- How the body of the top-level `try` in `main.py` ends: it completes, a
KeyboardInterrupt or an ordinary Exception propagates out of it, a
SystemExit propagates out of it, or the whole process is killed abruptly by
the OS (default signal disposition, so the `finally` never runs). -/
inductive BodyEnd
  | completed
  | keyboardInterrupt
  | exception
  | systemExit (code : Nat)
  | abruptKill
deriving DecidableEq, Repr

/-- `start_fastapi_server` (main.py lines 62-74): builds the uvicorn config
and runs the server. An ordinary Exception raised by the run is caught by
the inner `except Exception` and converted to `sys.exit(1)`; a
KeyboardInterrupt is not an Exception and escapes; SystemExit raised by a
signal handler is not an Exception either, so a delivered signal acts
according to the handler disposition `h`. -/
def start_fastapi_server (h : Sig → HandlerAction) : ServerEvent → BodyEnd
  | .runReturns => .completed
  | .runRaisesException => .systemExit 1
  | .runRaisesKeyboardInterrupt => .keyboardInterrupt
  | .signalDelivered s =>
      match h s with
      | .defaultKill => .abruptKill
      | .pySysExit c => .systemExit c

/-- Environment of one run: the nondeterministic outcomes supplied by the
OS and libraries. `workerStartRaises` / `beatStartRaises` say whether
`Process.start()` raises for the respective child; `serverEvent` says how
the blocking server run ends; the two behaviours describe the spawned
children as the cleanup loop will observe them. -/
structure Env where
  workerStartRaises : Bool
  beatStartRaises : Bool
  serverEvent : ServerEvent
  workerBehavior : ChildBehavior
  beatBehavior : ChildBehavior
deriving DecidableEq, Repr

/-- The log line announcing that a child process started. -/
def startEvent : Role → Event
  | .worker => .workerProcessStarted
  | .scheduler => .beatProcessStarted

/-- Banner plus server phase of the try body (main.py lines 121-126): after
the children are spawned the parent logs and runs the HTTP server in the
current process. -/
def serverPhase (h : Sig → HandlerAction) (env : Env) (ps : List Child)
    (evs : List Event) : List Child × List Event × BodyEnd :=
  (ps, evs ++ [Event.serverStarting], start_fastapi_server h env.serverEvent)

/-- Scheduler phase of the try body (main.py lines 111-119): the beat child
is spawned only when neither `--no-beat` nor `--no-celery` was passed; an
exception from the spawn propagates out of the try body, and the handle is
appended only after a successful `start()`. -/
def beatPhase (h : Sig → HandlerAction) (args : Args) (env : Env)
    (ps : List Child) (evs : List Event) : List Child × List Event × BodyEnd :=
  if args.no_beat || args.no_celery then
    serverPhase h env ps evs
  else if env.beatStartRaises then
    (ps, evs, .exception)
  else
    serverPhase h env (ps ++ [⟨Role.scheduler, env.beatBehavior⟩])
      (evs ++ [Event.beatProcessStarted])

/-- The whole try body of `main.py` (lines 100-126), returning the recorded
`processes` list, the events logged so far, and how the body ended. The
worker child is spawned unless `--no-celery` was passed; a spawn exception
propagates immediately, skipping the rest of the body. -/
def tryBody (h : Sig → HandlerAction) (args : Args) (env : Env) :
    List Child × List Event × BodyEnd :=
  if args.no_celery then
    beatPhase h args env [] []
  else if env.workerStartRaises then
    ([], [], .exception)
  else
    beatPhase h args env [⟨Role.worker, env.workerBehavior⟩]
      [Event.workerProcessStarted]

/-- The grace period of `process.join(timeout=5)` in the cleanup loop. -/
def gracePeriod : Nat := 5

/-- Seconds that `join(timeout=gracePeriod)` blocks for a child with the
given termination response. -/
def joinWait : Option Nat → Nat
  | some t => min t gracePeriod
  | none => gracePeriod

/-- Whether the child is still alive when the bounded join returns. -/
def aliveAfterJoin : Option Nat → Bool
  | some t => gracePeriod < t
  | none => true

/-- One iteration of the cleanup loop (main.py lines 135-142) on a recorded
child: the events logged, the seconds waited, and the liveness of the child
when the loop moves past it. A child whose `is_alive()` reports dead is
skipped without any action; `kill()` sends SIGKILL, modelled as immediately
fatal. -/
def cleanupChild (c : Child) : List Event × Nat × Bool :=
  if c.behavior.alive then
    if aliveAfterJoin c.behavior.termResponse then
      ([Event.terminating c.name, Event.forceKilling c.name],
        joinWait c.behavior.termResponse, false)
    else
      ([Event.terminating c.name], joinWait c.behavior.termResponse, false)
  else
    ([], 0, false)

/-- The cleanup loop over the recorded children, visited in recorded
order: concatenated events, the per-child waits, and the per-child liveness
after cleanup. -/
def cleanupLoop : List Child → List Event × List Nat × List Bool
  | [] => ([], [], [])
  | c :: rest =>
      ((cleanupChild c).1 ++ (cleanupLoop rest).1,
        (cleanupChild c).2.1 :: (cleanupLoop rest).2.1,
        (cleanupChild c).2.2 :: (cleanupLoop rest).2.2)

/-- Observable result of one run of the `__main__` block. -/
structure RunResult where
  events : List Event
  exitCode : Nat
  recorded : List Child
  waits : List Nat
  finalAlive : List Bool
  cleanupRan : Bool
deriving DecidableEq, Repr

/-- Extra log line produced by the `except` clauses of `main.py`
(lines 128-131) for each way the try body can end. -/
def caughtEvents : BodyEnd → List Event
  | .keyboardInterrupt => [Event.shutdownSignalCaught]
  | .exception => [Event.mainError]
  | _ => []

/-- Exit status of the parent for each way the try body can end: a caught
KeyboardInterrupt or Exception lets the script fall off the end (status 0),
a SystemExit carries its own code, and completion is status 0. -/
def exitCodeOf : BodyEnd → Nat
  | .systemExit c => c
  | .abruptKill => abruptExitCode
  | _ => 0
where
  /-- Conventional status of a process killed by an uncaught fatal signal. -/
  abruptExitCode : Nat := 137

/-- The `finally` block of `main.py` (lines 132-144): log, run the cleanup
loop over every recorded child, and log the final shutdown-complete line. -/
def finishRun (ps : List Child) (evs caught : List Event) (code : Nat) :
    RunResult :=
  { events := evs ++ caught ++ [Event.cleaningUp] ++ (cleanupLoop ps).1
      ++ [Event.shutdownComplete],
    exitCode := code,
    recorded := ps,
    waits := (cleanupLoop ps).2.1,
    finalAlive := (cleanupLoop ps).2.2,
    cleanupRan := true }

/-- The hypothetical outcome when the process dies abruptly (OS default
signal disposition): no `finally`, no cleanup, children left as they are. -/
def abruptResult (ps : List Child) (evs : List Event) : RunResult :=
  { events := evs,
    exitCode := exitCodeOf.abruptExitCode,
    recorded := ps,
    waits := [],
    finalAlive := ps.map (fun c => c.behavior.alive),
    cleanupRan := false }

/-- The `__main__` block of `main.py`, parametrised by the installed signal
dispositions. -/
def pymainWith (h : Sig → HandlerAction) (args : Args) (env : Env) :
    RunResult :=
  if (tryBody h args env).2.2 = BodyEnd.abruptKill then
    abruptResult (tryBody h args env).1 (tryBody h args env).2.1
  else
    finishRun (tryBody h args env).1 (tryBody h args env).2.1
      (caughtEvents (tryBody h args env).2.2)
      (exitCodeOf (tryBody h args env).2.2)

/-- The `__main__` block of `main.py` as shipped: it registers
`signal_handler` for SIGINT and SIGTERM before parsing arguments. -/
def pymain (args : Args) (env : Env) : RunResult :=
  pymainWith installedHandler args env

/-- Result of a child process entry function, observed from inside that
child process. -/
inductive EntryResult
  | blockedRunning
  | exitedWith (code : Nat)
deriving DecidableEq, Repr

/-- `start_celery_worker` (main.py lines 21-39): runs
`celery_app.worker_main`; any Exception raised by the body is caught inside
the child, logged, and converted to `sys.exit(1)`. -/
def start_celery_worker (bodyRaises : Bool) : EntryResult :=
  if bodyRaises then .exitedWith 1 else .blockedRunning

/-- `start_celery_beat` (main.py lines 42-59): runs `celery_app.start` for
beat with the same try/except shape as the worker entry. -/
def start_celery_beat (bodyRaises : Bool) : EntryResult :=
  if bodyRaises then .exitedWith 1 else .blockedRunning

end Supervisor

namespace LLMRoutes

/-- A stored LLM configuration row (the `LLMConfig` model), with the fields
the route handlers read and write. -/
structure LLMConfigRec where
  id : Nat
  provider : String
  model_name : String
  api_key : String
  api_base : Option String
  custom_provider : Option String
  litellm_params : Option String
  search_space_id : Nat
deriving DecidableEq, Repr

/-- The request body of `POST /llm-configs` (`LLMConfigCreate`). -/
structure LLMConfigCreate where
  provider : String
  model_name : String
  api_key : String
  api_base : Option String
  custom_provider : Option String
  litellm_params : Option String
  search_space_id : Nat
deriving DecidableEq, Repr

/-- The request body of `PUT /llm-configs/id` (`LLMConfigUpdate`):
`model_dump(exclude_unset=True)` distinguishes unset fields (`none` here)
from explicitly supplied values. -/
structure LLMConfigUpdate where
  provider : Option String
  model_name : Option String
  api_key : Option String
  api_base : Option (Option String)
  custom_provider : Option (Option String)
  litellm_params : Option (Option String)
deriving DecidableEq, Repr

/-- The relevant slice of the database: the existing search-space ids and
the stored LLM configurations. -/
structure DB where
  searchSpaces : List Nat
  llmConfigs : List LLMConfigRec
deriving DecidableEq, Repr

/-- An ORM session: the durably committed database state, and the staged
view that reads and uncommitted writes (`session.add`, `setattr`) see. -/
structure Session where
  committed : DB
  staged : DB
deriving DecidableEq, Repr

/-- `session.rollback()`: discard all uncommitted changes. -/
def Session.rollback (s : Session) : Session :=
  { s with staged := s.committed }

/-- `session.commit()` when it succeeds: the staged state becomes durable. -/
def Session.commit (s : Session) : Session :=
  { committed := s.staged, staged := s.staged }

/-- `session.add` of a new configuration row. -/
def DB.addConfig (db : DB) (r : LLMConfigRec) : DB :=
  { db with llmConfigs := db.llmConfigs ++ [r] }

/-- Replace the row with the given id (the effect of `setattr` on the ORM
object followed by flushing). -/
def DB.replaceConfig (db : DB) (id : Nat) (r : LLMConfigRec) : DB :=
  { db with llmConfigs := db.llmConfigs.map (fun x => if x.id == id then r else x) }

/-- The query of `verify_search_space_exists` (llm_config_routes.py lines
19-32): whether the search space id is present. -/
def searchSpaceExists (s : Session) (id : Nat) : Bool :=
  s.staged.searchSpaces.contains id

/-- The select-by-id query used by the update handler. -/
def findConfig (db : DB) (id : Nat) : Option LLMConfigRec :=
  db.llmConfigs.find? (fun r => r.id == id)

/-- Outcomes of the external collaborators the handlers call:
`validate_llm_config` (a test API call in `app/services/llm_service.py`,
outside the excerpt, treated as an oracle), whether `session.commit()`
raises, and whether the subsequent `session.refresh(db_llm_config)` raises
(for example because the database hiccups or the row is concurrently
deleted between commit and refresh). -/
structure RouteEnv where
  validationOk : Bool
  commitRaises : Bool
  refreshRaises : Bool
deriving DecidableEq, Repr

/-- An HTTPException surfaced to the client, identified by its status. -/
inductive RouteError
  | http (status : Nat)
deriving DecidableEq, Repr

/-- The row the create handler builds from the request body
(`LLMConfig(**llm_config.model_dump())`). -/
def newConfigRec (cfg : LLMConfigCreate) (s : Session) : LLMConfigRec :=
  { id := s.staged.llmConfigs.length,
    provider := cfg.provider,
    model_name := cfg.model_name,
    api_key := cfg.api_key,
    api_base := cfg.api_base,
    custom_provider := cfg.custom_provider,
    litellm_params := cfg.litellm_params,
    search_space_id := cfg.search_space_id }

/-- `create_llm_config` (llm_config_routes.py lines 35-72): verify the
search space (404), validate the configuration (400 raised before any
write), then add, commit, and refresh, all inside one try whose
`except Exception` clause rolls the session back and raises 500. A commit
failure therefore rolls the pending insert back; a refresh failure after a
successful commit also raises 500, but the rollback then acts on a fresh
transaction and the insert stays committed. -/
def create_llm_config (env : RouteEnv) (cfg : LLMConfigCreate) (s : Session) :
    Except RouteError LLMConfigRec × Session :=
  if searchSpaceExists s cfg.search_space_id = false then
    (.error (.http 404), s)
  else if env.validationOk = false then
    (.error (.http 400), s)
  else
    let s1 : Session := { s with staged := s.staged.addConfig (newConfigRec cfg s) }
    if env.commitRaises then
      (.error (.http 500), s1.rollback)
    else if env.refreshRaises then
      (.error (.http 500), s1.commit.rollback)
    else
      (.ok (newConfigRec cfg s), s1.commit)

/-- The merged temporary configuration the update handler validates:
each unset field falls back to the stored value (llm_config_routes.py
lines 147-158). -/
def mergeUpdate (u : LLMConfigUpdate) (r : LLMConfigRec) : LLMConfigRec :=
  { r with
    provider := u.provider.getD r.provider,
    model_name := u.model_name.getD r.model_name,
    api_key := u.api_key.getD r.api_key,
    api_base := u.api_base.getD r.api_base,
    custom_provider := u.custom_provider.getD r.custom_provider,
    litellm_params := u.litellm_params.getD r.litellm_params }

/-- `update_llm_config` (llm_config_routes.py lines 127-189): fetch the row
(404), validate the merged configuration (400 raised before `setattr`
touches the row), then apply the updates, commit, and refresh, all inside
one try whose `except Exception` clause rolls the session back and raises
500. A commit failure therefore rolls the pending update back; a refresh
failure after a successful commit also raises 500, but the rollback then
acts on a fresh transaction and the update stays committed. -/
def update_llm_config (env : RouteEnv) (id : Nat) (u : LLMConfigUpdate)
    (s : Session) : Except RouteError LLMConfigRec × Session :=
  match findConfig s.staged id with
  | none => (.error (.http 404), s)
  | some dbCfg =>
      if env.validationOk = false then
        (.error (.http 400), s)
      else
        let newCfg := mergeUpdate u dbCfg
        let s1 : Session := { s with staged := s.staged.replaceConfig id newCfg }
        if env.commitRaises then
          (.error (.http 500), s1.rollback)
        else if env.refreshRaises then
          (.error (.http 500), s1.commit.rollback)
        else
          (.ok newCfg, s1.commit)

end LLMRoutes

open Supervisor LLMRoutes

/-- The default invocation: no flags passed. -/
def argsDefault : Args := ⟨false, false, false⟩

/-- A run in which spawning the worker raises and everything else is
uneventful. -/
def envSpawnFail : Env := ⟨true, false, .runReturns, ⟨false, none⟩, ⟨false, none⟩⟩

/-- A run in which the worker spawns but spawning the beat scheduler
raises. -/
def envBeatFail : Env := ⟨false, true, .runReturns, ⟨true, some 1⟩, ⟨false, none⟩⟩

/-- A run in which the HTTP server raises while running. -/
def envServerFail : Env := ⟨false, false, .runRaisesException, ⟨true, some 1⟩, ⟨true, some 1⟩⟩

/-- A clean run: both children spawn, the server returns normally, both
children exit promptly once terminated. -/
def envClean : Env := ⟨false, false, .runReturns, ⟨true, some 1⟩, ⟨true, some 1⟩⟩

/-- A run ended by a SIGTERM delivered while the server blocks; the
scheduler ignores graceful termination. -/
def envSigterm : Env := ⟨false, false, .signalDelivered .sigterm, ⟨true, some 2⟩, ⟨true, none⟩⟩

/-- A sample stored configuration row. -/
def recSample : LLMConfigRec :=
  ⟨1, "openai", "gpt-4o", "sk-1", none, none, none, 7⟩

/-- A sample database with one search space and one stored configuration. -/
def dbSample : DB := ⟨[7], [recSample]⟩

/-- A quiescent session over the sample database. -/
def sessionSample : Session := ⟨dbSample, dbSample⟩

/-- A sample creation request aimed at the existing search space. -/
def cfgSample : LLMConfigCreate :=
  ⟨"openai", "gpt-4o-mini", "sk-2", none, none, none, 7⟩

/-- A sample update request setting only the model name. -/
def updSample : LLMConfigUpdate :=
  ⟨none, some "gpt-4.1", none, none, none, none⟩

/-- A route environment whose validation test call fails. -/
def routeEnvInvalid : RouteEnv := ⟨false, false, false⟩

/-- A route environment whose validation passes but whose commit raises. -/
def routeEnvCommitFail : RouteEnv := ⟨true, true, false⟩

/-- A route environment whose validation and commit succeed but whose
post-commit refresh raises. -/
def routeEnvRefreshFail : RouteEnv := ⟨true, false, true⟩

theorem joinWait_le (t : Option Nat) : joinWait t ≤ gracePeriod := by
  cases t with
  | none => exact le_refl _
  | some t => exact min_le_right _ _

theorem cleanupChild_wait_le (c : Child) : (cleanupChild c).2.1 ≤ gracePeriod := by
  unfold cleanupChild
  split
  · split
    · exact joinWait_le _
    · exact joinWait_le _
  · exact Nat.zero_le _

theorem cleanupChild_dead (c : Child) (h : c.behavior.alive = false) :
    cleanupChild c = ([], 0, false) := by
  simp [cleanupChild, h]

theorem cleanupChild_final (c : Child) : (cleanupChild c).2.2 = false := by
  unfold cleanupChild
  split
  · split <;> rfl
  · rfl

theorem cleanupLoop_events (l : List Child) :
    (cleanupLoop l).1 = (l.map fun c => (cleanupChild c).1).flatten := by
  induction l with
  | nil => rfl
  | cons c rest ih => simp [cleanupLoop, ih]

theorem cleanupLoop_waits_length (l : List Child) :
    (cleanupLoop l).2.1.length = l.length := by
  induction l with
  | nil => rfl
  | cons c rest ih => simp [cleanupLoop, ih]

theorem cleanupLoop_waits_le (l : List Child) :
    ∀ w ∈ (cleanupLoop l).2.1, w ≤ gracePeriod := by
  induction l with
  | nil => intro w hw; simp [cleanupLoop] at hw
  | cons c rest ih =>
      intro w hw
      simp only [cleanupLoop, List.mem_cons] at hw
      rcases hw with h | h
      · exact h ▸ cleanupChild_wait_le c
      · exact ih w h

theorem cleanupLoop_final (l : List Child) :
    (cleanupLoop l).2.2 = List.replicate l.length false := by
  induction l with
  | nil => rfl
  | cons c rest ih => simp [cleanupLoop, ih, cleanupChild_final, List.replicate_succ]

theorem start_fastapi_server_ne_abrupt (ev : ServerEvent) :
    start_fastapi_server installedHandler ev ≠ BodyEnd.abruptKill := by
  cases ev <;> simp [start_fastapi_server, installedHandler]

theorem tryBody_bodyEnd (args : Args) (env : Env) :
    (tryBody installedHandler args env).2.2 = BodyEnd.exception
    ∨ (tryBody installedHandler args env).2.2
        = start_fastapi_server installedHandler env.serverEvent := by
  rcases args with ⟨r, nc, nb⟩
  cases nc <;> cases nb <;>
    cases hw : env.workerStartRaises <;> cases hb : env.beatStartRaises <;>
      simp [tryBody, beatPhase, serverPhase, hw, hb]

theorem tryBody_ne_abrupt (args : Args) (env : Env) :
    (tryBody installedHandler args env).2.2 ≠ BodyEnd.abruptKill := by
  rcases tryBody_bodyEnd args env with h | h <;> rw [h]
  · simp
  · exact start_fastapi_server_ne_abrupt env.serverEvent

theorem pymain_eq (args : Args) (env : Env) :
    pymain args env
      = finishRun (tryBody installedHandler args env).1
          (tryBody installedHandler args env).2.1
          (caughtEvents (tryBody installedHandler args env).2.2)
          (exitCodeOf (tryBody installedHandler args env).2.2) := by
  unfold pymain pymainWith
  rw [if_neg (tryBody_ne_abrupt args env)]

theorem pymain_exitCode (args : Args) (env : Env) :
    (pymain args env).exitCode
      = exitCodeOf (tryBody installedHandler args env).2.2 := by
  rw [pymain_eq]
  rfl

theorem getLast?_append_singleton {α : Type} (l : List α) (x : α) :
    (l ++ [x]).getLast? = some x := by
  rw [List.getLast?_append_cons l x []]
  rfl

theorem pymain_last_event (args : Args) (env : Env) :
    (pymain args env).events.getLast? = some Event.shutdownComplete := by
  rw [pymain_eq]
  show (_ ++ _ ++ [Event.cleaningUp] ++ _ ++ [Event.shutdownComplete]).getLast?
      = some Event.shutdownComplete
  exact getLast?_append_singleton _ _

theorem tryBody_bodyEnd_of_spawn_ok (args : Args) (env : Env)
    (hw : env.workerStartRaises = false) (hb : env.beatStartRaises = false) :
    (tryBody installedHandler args env).2.2
      = start_fastapi_server installedHandler env.serverEvent := by
  rcases args with ⟨r, nc, nb⟩
  cases nc <;> cases nb <;> simp [tryBody, beatPhase, serverPhase, hw, hb]

theorem tryBody_spawnFail (args : Args) (env : Env)
    (hc : args.no_celery = false) (hw : env.workerStartRaises = true) :
    tryBody installedHandler args env = ([], [], BodyEnd.exception) := by
  simp [tryBody, hc, hw]

theorem tryBody_beatFail (args : Args) (env : Env)
    (hc : args.no_celery = false) (hw : env.workerStartRaises = false)
    (hnb : args.no_beat = false) (hb : env.beatStartRaises = true) :
    tryBody installedHandler args env
      = ([⟨Role.worker, env.workerBehavior⟩], [Event.workerProcessStarted],
          BodyEnd.exception) := by
  simp [tryBody, beatPhase, hc, hw, hnb, hb]

theorem mem_cleanupChild (c : Child) (e : Event) (he : e ∈ (cleanupChild c).1) :
    e = Event.terminating c.name ∨ e = Event.forceKilling c.name := by
  unfold cleanupChild at he
  split at he
  · split at he <;> simp at he <;> tauto
  · simp at he

theorem mem_cleanupLoop (l : List Child) (e : Event) (he : e ∈ (cleanupLoop l).1) :
    ∃ c ∈ l, e = Event.terminating c.name ∨ e = Event.forceKilling c.name := by
  induction l with
  | nil => simp [cleanupLoop] at he
  | cons c rest ih =>
      simp only [cleanupLoop, List.mem_append] at he
      rcases he with h | h
      · exact ⟨c, List.mem_cons_self c rest, mem_cleanupChild c e h⟩
      · obtain ⟨d, hd, hor⟩ := ih h
        exact ⟨d, List.mem_cons_of_mem c hd, hor⟩

theorem serverStarting_not_mem_cleanupLoop (l : List Child) :
    Event.serverStarting ∉ (cleanupLoop l).1 := by
  intro h
  obtain ⟨c, _, h1 | h1⟩ := mem_cleanupLoop l _ h <;> simp at h1

theorem tryBody_snd_eq (args : Args) (env env' : Env)
    (h1 : env.workerStartRaises = env'.workerStartRaises)
    (h2 : env.beatStartRaises = env'.beatStartRaises)
    (h3 : env.serverEvent = env'.serverEvent) :
    (tryBody installedHandler args env).2.2
      = (tryBody installedHandler args env').2.2 := by
  rcases args with ⟨r, nc, nb⟩
  cases nc <;> cases nb <;>
    cases hw : env.workerStartRaises <;> cases hb : env.beatStartRaises <;>
      simp [tryBody, beatPhase, serverPhase, hw, hb, ← h1, ← h2, ← h3]

/-- Claim C1: for every combination of the no-celery and no-beat flags,
with both spawns succeeding, the recorded child set is empty under
no-celery, exactly the worker when only no-beat is passed, and worker plus
scheduler otherwise; the child start events appear in recorded order
(worker before scheduler) and all precede the server-starting event. -/
theorem launched_children_match_flags (args : Args) (env : Env)
    (hw : env.workerStartRaises = false) (hb : env.beatStartRaises = false) :
    (pymain args env).recorded.map Child.name
        = (if args.no_celery then []
           else if args.no_beat then [Role.worker]
           else [Role.worker, Role.scheduler])
    ∧ (tryBody installedHandler args env).2.1
        = (pymain args env).recorded.map (fun c => startEvent c.name)
            ++ [Event.serverStarting]
    ∧ Event.serverStarting ∈ (pymain args env).events := by
  rw [pymain_eq]
  rcases args with ⟨r, nc, nb⟩
  cases nc <;> cases nb <;>
    simp [finishRun, tryBody, beatPhase, serverPhase, hw, hb, startEvent]

/-- Witness for C1 at the default flags in a clean environment. -/
theorem launched_children_match_flags_witness :
    (pymain argsDefault envClean).recorded.map Child.name
        = [Role.worker, Role.scheduler]
    ∧ (tryBody installedHandler argsDefault envClean).2.1
        = (pymain argsDefault envClean).recorded.map (fun c => startEvent c.name)
            ++ [Event.serverStarting]
    ∧ Event.serverStarting ∈ (pymain argsDefault envClean).events := by
  have h := launched_children_match_flags argsDefault envClean rfl rfl
  simpa [argsDefault] using h

/-- Claim C2: however the server-run step ends, the run enters the cleanup
phase over every recorded child handle (one wait entry per handle), and the
shutdown-complete line is the final event of every run. -/
theorem cleanup_always_runs (args : Args) (env : Env) :
    (pymain args env).cleanupRan = true
    ∧ (∃ pre : List Event,
        (pymain args env).events
          = pre ++ [Event.cleaningUp]
              ++ (cleanupLoop (pymain args env).recorded).1
              ++ [Event.shutdownComplete])
    ∧ (pymain args env).waits.length = (pymain args env).recorded.length
    ∧ (pymain args env).events.getLast? = some Event.shutdownComplete := by
  refine ⟨?_, ?_, ?_, pymain_last_event args env⟩
  · rw [pymain_eq]
    rfl
  · rw [pymain_eq]
    refine ⟨(tryBody installedHandler args env).2.1
        ++ caughtEvents (tryBody installedHandler args env).2.2, ?_⟩
    simp [finishRun]
  · rw [pymain_eq]
    simp [finishRun, cleanupLoop_waits_length]

/-- Claim C3: the cleanup loop visits children in recorded order; for a
still-alive child it first requests graceful termination, waits at most the
five-second grace period, and force-kills the child (with no further
waiting) only if it is still alive after the bounded join, so every
per-child wait is bounded by the grace period. -/
theorem cleanup_order_and_bounded_wait (cs : List Child) (c : Child)
    (hc : c.behavior.alive = true) :
    (cleanupLoop cs).1 = (cs.map fun d => (cleanupChild d).1).flatten
    ∧ (∀ w ∈ (cleanupLoop cs).2.1, w ≤ gracePeriod)
    ∧ (cleanupChild c).1.head? = some (Event.terminating c.name)
    ∧ (cleanupChild c).2.1 ≤ gracePeriod
    ∧ (aliveAfterJoin c.behavior.termResponse = true →
        (cleanupChild c).1
          = [Event.terminating c.name, Event.forceKilling c.name]) := by
  refine ⟨cleanupLoop_events cs, cleanupLoop_waits_le cs, ?_,
    cleanupChild_wait_le c, ?_⟩
  · unfold cleanupChild
    rw [if_pos hc]
    split <;> rfl
  · intro hk
    simp [cleanupChild, hc, hk]

/-- Witness for C3 on a two-child list whose scheduler ignores graceful
termination. -/
theorem cleanup_order_and_bounded_wait_witness :
    (cleanupLoop [⟨Role.worker, ⟨true, some 2⟩⟩, ⟨Role.scheduler, ⟨true, none⟩⟩]).1
        = (([⟨Role.worker, ⟨true, some 2⟩⟩, ⟨Role.scheduler, ⟨true, none⟩⟩] :
            List Child).map fun d => (cleanupChild d).1).flatten
    ∧ (cleanupChild ⟨Role.scheduler, ⟨true, none⟩⟩).1
        = [Event.terminating Role.scheduler, Event.forceKilling Role.scheduler] := by
  have h := cleanup_order_and_bounded_wait
      [⟨Role.worker, ⟨true, some 2⟩⟩, ⟨Role.scheduler, ⟨true, none⟩⟩]
      ⟨Role.scheduler, ⟨true, none⟩⟩ rfl
  exact ⟨h.1, h.2.2.2.2 rfl⟩

/-- Claim C4: whatever the flags, spawn outcomes, server ending, and child
behaviours, every recorded child is no longer alive by the time the parent
exits: the final liveness vector is identically false. -/
theorem no_live_children_at_exit (args : Args) (env : Env) :
    (pymain args env).finalAlive
      = List.replicate (pymain args env).recorded.length false := by
  rw [pymain_eq]
  simp [finishRun, cleanupLoop_final]

/-- Claim C5 fails on the code: when spawning the worker raises, the
top-level except-Exception clause only logs the error and the script falls
off its end, so a run with a top-level unexpected parent error exits with
status 0 rather than a non-zero status. -/
theorem parent_error_exits_zero_cex :
    Event.mainError ∈ (pymain argsDefault envSpawnFail).events
    ∧ (pymain argsDefault envSpawnFail).exitCode = 0 := by decide

/-- Claim C5 as amended: the parent exits 0 on a clean shutdown and exits
1 (non-zero, after running cleanup) when the HTTP server fails, but a
top-level unexpected error in the parent is caught and logged and the
parent still exits 0. -/
theorem exit_code_policy (args : Args) (env : Env) :
    (env.workerStartRaises = false → env.beatStartRaises = false →
      env.serverEvent = ServerEvent.runRaisesException →
        (pymain args env).exitCode = 1 ∧ (pymain args env).cleanupRan = true)
    ∧ (env.workerStartRaises = false → env.beatStartRaises = false →
        env.serverEvent = ServerEvent.runReturns →
          (pymain args env).exitCode = 0)
    ∧ (args.no_celery = false → env.workerStartRaises = true →
        (pymain args env).exitCode = 0
          ∧ Event.mainError ∈ (pymain args env).events) := by
  refine ⟨?_, ?_, ?_⟩
  · intro hw hb hs
    constructor
    · rw [pymain_exitCode, tryBody_bodyEnd_of_spawn_ok args env hw hb, hs]
      rfl
    · rw [pymain_eq]
      rfl
  · intro hw hb hs
    rw [pymain_exitCode, tryBody_bodyEnd_of_spawn_ok args env hw hb, hs]
    rfl
  · intro hc hw
    constructor
    · rw [pymain_exitCode, tryBody_spawnFail args env hc hw]
      rfl
    · rw [pymain_eq, tryBody_spawnFail args env hc hw]
      simp [finishRun, caughtEvents]

/-- Witness for C5 as amended: server failure exits 1 with cleanup, a clean
run exits 0, and a spawn failure exits 0 with the error logged. -/
theorem exit_code_policy_witness :
    ((pymain argsDefault envServerFail).exitCode = 1
      ∧ (pymain argsDefault envServerFail).cleanupRan = true)
    ∧ (pymain argsDefault envClean).exitCode = 0
    ∧ ((pymain argsDefault envSpawnFail).exitCode = 0
      ∧ Event.mainError ∈ (pymain argsDefault envSpawnFail).events) :=
  ⟨(exit_code_policy argsDefault envServerFail).1 rfl rfl rfl,
   (exit_code_policy argsDefault envClean).2.1 rfl rfl rfl,
   (exit_code_policy argsDefault envSpawnFail).2.2 rfl rfl⟩

/-- Claim C6 fails on the code: when spawning the worker raises, the
supervisor does not continue startup with the remaining children and the
HTTP server; the beat scheduler is never spawned and the server-starting
log line never appears. -/
theorem spawn_failure_aborts_cex :
    Event.serverStarting ∉ (pymain argsDefault envSpawnFail).events
    ∧ Event.beatProcessStarted ∉ (pymain argsDefault envSpawnFail).events
    ∧ (pymain argsDefault envSpawnFail).recorded = [] := by decide

/-- Claim C6 as amended: a spawn failure is logged and the failed child is
excluded from the recorded handles, but the supervisor aborts the rest of
startup (no further children, no HTTP server); the already-recorded
children are still cleaned up and the parent exits 0. -/
theorem spawn_failure_logged_and_aborts (args : Args) (env : Env) :
    (args.no_celery = false → env.workerStartRaises = true →
      (pymain args env).recorded = []
      ∧ Event.mainError ∈ (pymain args env).events
      ∧ Event.serverStarting ∉ (pymain args env).events
      ∧ (pymain args env).cleanupRan = true
      ∧ (pymain args env).exitCode = 0)
    ∧ (args.no_celery = false → env.workerStartRaises = false →
        args.no_beat = false → env.beatStartRaises = true →
      (pymain args env).recorded.map Child.name = [Role.worker]
      ∧ Event.mainError ∈ (pymain args env).events
      ∧ Event.serverStarting ∉ (pymain args env).events
      ∧ (pymain args env).cleanupRan = true
      ∧ (pymain args env).exitCode = 0) := by
  constructor
  · intro hc hw
    rw [pymain_eq, tryBody_spawnFail args env hc hw]
    refine ⟨rfl, ?_, ?_, rfl, rfl⟩ <;>
      simp [finishRun, caughtEvents, cleanupLoop]
  · intro hc hw hnb hb
    rw [pymain_eq, tryBody_beatFail args env hc hw hnb hb]
    refine ⟨rfl, ?_, ?_, rfl, rfl⟩ <;>
      simp [finishRun, caughtEvents, serverStarting_not_mem_cleanupLoop]

/-- Witness for C6 as amended, at both failing-spawn environments. -/
theorem spawn_failure_logged_and_aborts_witness :
    ((pymain argsDefault envSpawnFail).recorded = []
      ∧ Event.mainError ∈ (pymain argsDefault envSpawnFail).events
      ∧ Event.serverStarting ∉ (pymain argsDefault envSpawnFail).events
      ∧ (pymain argsDefault envSpawnFail).cleanupRan = true
      ∧ (pymain argsDefault envSpawnFail).exitCode = 0)
    ∧ ((pymain argsDefault envBeatFail).recorded.map Child.name = [Role.worker]
      ∧ Event.mainError ∈ (pymain argsDefault envBeatFail).events
      ∧ Event.serverStarting ∉ (pymain argsDefault envBeatFail).events
      ∧ (pymain argsDefault envBeatFail).cleanupRan = true
      ∧ (pymain argsDefault envBeatFail).exitCode = 0) :=
  ⟨(spawn_failure_logged_and_aborts argsDefault envSpawnFail).1 rfl rfl,
   (spawn_failure_logged_and_aborts argsDefault envBeatFail).2 rfl rfl rfl rfl⟩

/-- Claim C7: an exception in a child entry function is caught inside the
child and makes only that child exit with status 1; the parent's exit code
is independent of the child behaviours, and an already-dead child is
observed during cleanup only as a dead handle, with no action taken. -/
theorem child_failure_confined (b : Bool) (hb : b = true)
    (args : Args) (env env' : Env)
    (h1 : env.workerStartRaises = env'.workerStartRaises)
    (h2 : env.beatStartRaises = env'.beatStartRaises)
    (h3 : env.serverEvent = env'.serverEvent) :
    start_celery_worker b = EntryResult.exitedWith 1
    ∧ start_celery_beat b = EntryResult.exitedWith 1
    ∧ (pymain args env).exitCode = (pymain args env').exitCode
    ∧ ∀ c : Child, c.behavior.alive = false → cleanupChild c = ([], 0, false) := by
  refine ⟨by simp [start_celery_worker, hb], by simp [start_celery_beat, hb], ?_, ?_⟩
  · rw [pymain_exitCode, pymain_exitCode, tryBody_snd_eq args env env' h1 h2 h3]
  · exact fun c hcd => cleanupChild_dead c hcd

/-- Witness for C7: a failing worker body exits 1, and the parent exit code
of a run whose worker died early matches that of a clean run. -/
theorem child_failure_confined_witness :
    start_celery_worker true = EntryResult.exitedWith 1
    ∧ start_celery_beat true = EntryResult.exitedWith 1
    ∧ (pymain argsDefault
        ⟨false, false, .runReturns, ⟨false, none⟩, ⟨true, some 1⟩⟩).exitCode
        = (pymain argsDefault envClean).exitCode
    ∧ cleanupChild ⟨Role.worker, ⟨false, none⟩⟩ = ([], 0, false) := by
  have h := child_failure_confined true rfl argsDefault
      ⟨false, false, .runReturns, ⟨false, none⟩, ⟨true, some 1⟩⟩ envClean rfl rfl rfl
  exact ⟨h.1, h.2.1, h.2.2.1, h.2.2.2 _ rfl⟩

/-- Claim C8: the script installs `signal_handler` for both SIGINT and
SIGTERM, and delivery of either signal during the server run takes the
clean shutdown path (cleanup runs, the shutdown-complete line is last,
exit status 0) instead of the abrupt default OS disposition. -/
theorem signal_triggers_clean_shutdown (s : Sig) (args : Args) (env : Env)
    (hs : env.serverEvent = ServerEvent.signalDelivered s) :
    installedHandler s = HandlerAction.pySysExit 0
    ∧ installedHandler s ≠ HandlerAction.defaultKill
    ∧ (pymain args env).cleanupRan = true
    ∧ (pymain args env).exitCode = 0
    ∧ (pymain args env).events.getLast? = some Event.shutdownComplete := by
  refine ⟨rfl, by simp [installedHandler], ?_, ?_, pymain_last_event args env⟩
  · rw [pymain_eq]
    rfl
  · rw [pymain_exitCode]
    rcases tryBody_bodyEnd args env with h | h <;> rw [h]
    · rfl
    · rw [hs]
      rfl

/-- Witness for C8 with SIGTERM delivered during a two-child run. -/
theorem signal_triggers_clean_shutdown_witness :
    installedHandler Sig.sigterm = HandlerAction.pySysExit 0
    ∧ installedHandler Sig.sigterm ≠ HandlerAction.defaultKill
    ∧ (pymain argsDefault envSigterm).cleanupRan = true
    ∧ (pymain argsDefault envSigterm).exitCode = 0
    ∧ (pymain argsDefault envSigterm).events.getLast?
        = some Event.shutdownComplete :=
  signal_triggers_clean_shutdown Sig.sigterm argsDefault envSigterm rfl

/-- Claim C9: termination and kill are applied only to children whose
liveness check reports them alive: a dead child produces no events and no
wait, a terminating event implies the child was alive at the first check,
and a force-kill event implies it was alive both at the first check and
after the bounded join. -/
theorem terminate_only_applied_to_alive (c : Child) :
    (c.behavior.alive = false → cleanupChild c = ([], 0, false))
    ∧ (∀ r : Role, Event.terminating r ∈ (cleanupChild c).1 →
        c.behavior.alive = true)
    ∧ (∀ r : Role, Event.forceKilling r ∈ (cleanupChild c).1 →
        c.behavior.alive = true
          ∧ aliveAfterJoin c.behavior.termResponse = true) := by
  refine ⟨cleanupChild_dead c, ?_, ?_⟩
  · intro r hr
    cases ha : c.behavior.alive with
    | false =>
        rw [cleanupChild_dead c ha] at hr
        simp at hr
    | true => rfl
  · intro r hr
    cases ha : c.behavior.alive with
    | false =>
        rw [cleanupChild_dead c ha] at hr
        simp at hr
    | true =>
        refine ⟨rfl, ?_⟩
        cases hj : aliveAfterJoin c.behavior.termResponse with
        | false =>
            simp [cleanupChild, ha, hj] at hr
        | true => rfl

/-- Witness for C9: a dead worker handle is skipped, and a force-killed
scheduler was alive at both checks. -/
theorem terminate_only_applied_to_alive_witness :
    cleanupChild ⟨Role.worker, ⟨false, some 1⟩⟩ = ([], 0, false)
    ∧ ((⟨Role.scheduler, ⟨true, none⟩⟩ : Child).behavior.alive = true
        ∧ aliveAfterJoin (⟨Role.scheduler, ⟨true, none⟩⟩ : Child).behavior.termResponse
            = true) :=
  ⟨(terminate_only_applied_to_alive ⟨Role.worker, ⟨false, some 1⟩⟩).1 rfl,
   (terminate_only_applied_to_alive ⟨Role.scheduler, ⟨true, none⟩⟩).2.2
      Role.scheduler (by decide)⟩

/-- Claim C10 fails on the code: when `session.refresh` raises after a
successful commit (llm_config_routes.py line 64), the create handler
reports HTTP 500 although the insert is already durably committed and the
rollback in the except clause acts on a fresh transaction, so an error is
reported while the stored configuration state has changed. -/
theorem llm_config_error_changes_state_cex :
    (create_llm_config routeEnvRefreshFail cfgSample sessionSample).1
        = .error (.http 500)
    ∧ (create_llm_config routeEnvRefreshFail cfgSample sessionSample).2.committed
        ≠ sessionSample.committed := by
  refine ⟨rfl, ?_⟩
  decide

/-- Claim C10 as amended: for creating and for updating an LLM
configuration, a validation failure raises HTTP 400 before any write
reaches the session, a commit failure rolls the session back to the
committed state with HTTP 500, and on every error path that does not
follow a successful commit the committed configuration state is unchanged;
but a refresh failure after a successful commit reports HTTP 500 while the
insert or update stays committed. -/
theorem llm_config_error_preserves_state (env : RouteEnv)
    (cfg : LLMConfigCreate) (id : Nat) (u : LLMConfigUpdate) (s : Session) :
    (env.refreshRaises = false → ∀ err,
        (create_llm_config env cfg s).1 = .error err →
        (create_llm_config env cfg s).2.committed = s.committed)
    ∧ (searchSpaceExists s cfg.search_space_id = true →
        env.validationOk = false →
        create_llm_config env cfg s = (.error (.http 400), s))
    ∧ (searchSpaceExists s cfg.search_space_id = true →
        env.validationOk = true → env.commitRaises = true →
        (create_llm_config env cfg s).1 = .error (.http 500)
        ∧ (create_llm_config env cfg s).2 = ⟨s.committed, s.committed⟩)
    ∧ (searchSpaceExists s cfg.search_space_id = true →
        env.validationOk = true → env.commitRaises = false →
        env.refreshRaises = true →
        (create_llm_config env cfg s).1 = .error (.http 500)
        ∧ (create_llm_config env cfg s).2
            = ⟨s.staged.addConfig (newConfigRec cfg s),
                s.staged.addConfig (newConfigRec cfg s)⟩)
    ∧ (env.refreshRaises = false → ∀ err,
        (update_llm_config env id u s).1 = .error err →
        (update_llm_config env id u s).2.committed = s.committed)
    ∧ (∀ r, findConfig s.staged id = some r → env.validationOk = false →
        update_llm_config env id u s = (.error (.http 400), s))
    ∧ (∀ r, findConfig s.staged id = some r → env.validationOk = true →
        env.commitRaises = true →
        (update_llm_config env id u s).1 = .error (.http 500)
        ∧ (update_llm_config env id u s).2 = ⟨s.committed, s.committed⟩)
    ∧ (∀ r, findConfig s.staged id = some r → env.validationOk = true →
        env.commitRaises = false → env.refreshRaises = true →
        (update_llm_config env id u s).1 = .error (.http 500)
        ∧ (update_llm_config env id u s).2
            = ⟨s.staged.replaceConfig id (mergeUpdate u r),
                s.staged.replaceConfig id (mergeUpdate u r)⟩) := by
  rcases env with ⟨v, cr, rr⟩
  refine ⟨?_, ?_, ?_, ?_, ?_, ?_, ?_, ?_⟩
  · intro hrr err herr
    cases hss : searchSpaceExists s cfg.search_space_id <;> cases v <;> cases cr <;>
      simp_all [create_llm_config, Session.rollback, Session.commit]
  · intro hss hv
    simp_all [create_llm_config]
  · intro hss hv hcr
    simp_all [create_llm_config, Session.rollback]
  · intro hss hv hcr hrr
    simp_all [create_llm_config, Session.rollback, Session.commit]
  · intro hrr err herr
    cases hf : findConfig s.staged id with
    | none => simp_all [update_llm_config]
    | some r =>
        cases v <;> cases cr <;>
          simp_all [update_llm_config, Session.rollback, Session.commit]
  · intro r hf hv
    simp_all [update_llm_config]
  · intro r hf hv hcr
    simp_all [update_llm_config, Session.rollback]
  · intro r hf hv hcr hrr
    simp_all [update_llm_config, Session.rollback, Session.commit]

/-- Witness for C10 as amended, on the sample session: a failed validation
yields 400 with the session untouched on both handlers, a failed commit on
update yields 500 rolled back to the original committed state, and a failed
refresh on update yields 500 with the updated row committed. -/
theorem llm_config_error_preserves_state_witness :
    (create_llm_config routeEnvInvalid cfgSample sessionSample).2.committed
        = sessionSample.committed
    ∧ create_llm_config routeEnvInvalid cfgSample sessionSample
        = (.error (.http 400), sessionSample)
    ∧ update_llm_config routeEnvInvalid 1 updSample sessionSample
        = (.error (.http 400), sessionSample)
    ∧ ((update_llm_config routeEnvCommitFail 1 updSample sessionSample).1
          = .error (.http 500)
        ∧ (update_llm_config routeEnvCommitFail 1 updSample sessionSample).2
          = ⟨sessionSample.committed, sessionSample.committed⟩)
    ∧ ((update_llm_config routeEnvRefreshFail 1 updSample sessionSample).1
          = .error (.http 500)
        ∧ (update_llm_config routeEnvRefreshFail 1 updSample sessionSample).2
          = ⟨sessionSample.staged.replaceConfig 1 (mergeUpdate updSample recSample),
              sessionSample.staged.replaceConfig 1 (mergeUpdate updSample recSample)⟩) := by
  have h1 := llm_config_error_preserves_state routeEnvInvalid cfgSample 1
      updSample sessionSample
  have h2 := llm_config_error_preserves_state routeEnvCommitFail cfgSample 1
      updSample sessionSample
  have h3 := llm_config_error_preserves_state routeEnvRefreshFail cfgSample 1
      updSample sessionSample
  exact ⟨h1.1 rfl (.http 400) rfl, h1.2.1 rfl rfl, h1.2.2.2.2.2.1 recSample rfl rfl,
    h2.2.2.2.2.2.2.1 recSample rfl rfl rfl,
    h3.2.2.2.2.2.2.2 recSample rfl rfl rfl rfl⟩
